import Mathlib

/-!
# Verification of the strongex StrongHelp extractor

A shallow embedding of the strongex sources (`stronghelp.c`, `objectdb.c`,
`files.c`) in Lean 4, together with theorems settling the specification
claims about the container parser and the merge/diff/sync object database.

Conventions used throughout:

* the loaded container buffer is a `List Nat` of byte values; the C global
  pair `stronghelp_file_root` / `stronghelp_file_length` is an
  `Option (List Nat)` (`none` = no buffer loaded, length = `List.length`);
* C `int32_t` values are Lean `Int` (reads decode two's complement),
  C `size_t` values are `Nat`;
* functions that the C code implements by unbounded recursion on attacker
  controlled data take an explicit `fuel : Nat`; a result of `none` means
  the recursion did not complete within `fuel` steps, so
  `∀ fuel, f fuel = none` exhibits divergence of the C original;
* undefined behaviour that the C code can actually reach (dereferencing a
  failed block resolve, `strlen(NULL)`) is made explicit by a `crash`
  result constructor;
* `malloc` failures are not modelled (allocation always succeeds).
-/

namespace Strongex

/-! ## stronghelp.c : magic words and block geometry -/

/-- `STRONGHELP_FILE_WORD` — the `"HELP"` magic word (little-endian). -/
def STRONGHELP_FILE_WORD : Int := 0x504c4548

/-- `STRONGHELP_DIR_WORD` — the `"DIR$"` magic word. -/
def STRONGHELP_DIR_WORD : Int := 0x24524944

/-- `STRONGHELP_DATA_WORD` — the `"DATA"` magic word. -/
def STRONGHELP_DATA_WORD : Int := 0x41544144

/-- `STRONGHELP_FREE_WORD` — the `"FREE"` magic word. -/
def STRONGHELP_FREE_WORD : Int := 0x45455246

/-- Errors reported by `stronghelp_get_block_address`
(`MSG_NO_FILE`, `MSG_BAD_OFFSET`, `MSG_OFFSET_RANGE`). -/
inductive SHErr where
  | noFile
  | badOffset
  | offsetRange
deriving DecidableEq

/--
Embedding of `stronghelp_get_block_address` (stronghelp.c:332-355).

The C function translates a file offset into a pointer
`stronghelp_file_root + offset`; we return the validated offset itself.
The `min_size < 0` test of the source is dead code (`min_size` is a
`size_t`) and has no counterpart on `Nat`.
-/
def stronghelp_get_block_address (file : Option (List Nat)) (offset : Int)
    (min_size : Nat) : Except SHErr Int :=
  match file with
  | none => .error .noFile
  | some buf =>
    if offset < 0 then .error .badOffset
    else if (buf.length : Int) ≤ offset + min_size then .error .offsetRange
    else .ok offset

/-! ## Little-endian 32-bit reads from the buffer -/

/-- One byte of the buffer (out-of-range reads yield 0; the embedding only
performs them behind a successful bounds check). -/
def byteAt (buf : List Nat) (i : Nat) : Nat := (buf.getD i 0) % 256

/-- Unsigned little-endian 32-bit word at byte offset `off`. -/
def read32u (buf : List Nat) (off : Nat) : Nat :=
  byteAt buf off + 256 * byteAt buf (off + 1) +
    65536 * byteAt buf (off + 2) + 16777216 * byteAt buf (off + 3)

/-- Two's-complement reinterpretation of a 32-bit word, as the C code reads
buffer words through `int32_t` struct fields. -/
def toInt32 (n : Nat) : Int :=
  if n % 4294967296 < 2147483648 then ((n % 4294967296 : Nat) : Int)
  else ((n % 4294967296 : Nat) : Int) - 4294967296

/-- Signed little-endian `int32_t` at byte offset `off`. -/
def read32 (buf : List Nat) (off : Nat) : Int := toInt32 (read32u buf off)

/-! ## Free-space chain walk -/

/--
Embedding of `stronghelp_walk_free_space` (stronghelp.c:297-322), with
fuel.  The C function recurses on `free->next_offset` with no cycle
detection; `none` means the recursion did not terminate within `fuel`
unfoldings.  A negative offset terminates the chain with 0; a failed block
resolve or a magic-word mismatch (`MSG_BAD_FREE_MAGIC`) returns 0.
`sizeof(struct stronghelp_file_free_block)` = 12.
-/
def stronghelp_walk_free_space (buf : List Nat) (offset : Int) :
    Nat → Option Int
  | 0 => none
  | fuel + 1 =>
    if offset < 0 then some 0
    else
      match stronghelp_get_block_address (some buf) offset 12 with
      | .error _ => some 0
      | .ok a =>
        let magic := read32 buf a.toNat
        let free_size := read32 buf (a.toNat + 4)
        let next_offset := read32 buf (a.toNat + 8)
        if magic ≠ STRONGHELP_FREE_WORD then some 0
        else (stronghelp_walk_free_space buf next_offset fuel).map (· + free_size)

/-- A 16-byte buffer holding a single valid `FREE` block at offset 0 whose
`next_offset` field points back at itself (a one-block cycle). -/
def stronghelp_cyclic_free_buffer : List Nat :=
  [70, 82, 69, 69, 1, 0, 0, 0, 0, 0, 0, 0, 0, 0, 0, 0]

/-! ## Directory entries and recursive object processing -/

/-- NUL-terminated string in the buffer starting at `off` (the byte list up
to, and not including, the first 0).  Unlike C's `strlen`, the read cannot
run past the end of the buffer. -/
def readCStr (buf : List Nat) (off : Nat) : List Nat :=
  (buf.drop off).takeWhile (fun b => b ≠ 0)

/-- `struct stronghelp_file_dir_entry` (stronghelp.c:66-75).  The address
fields are kept as raw unsigned words; `object_offset` and `size` are the
signed values the code works with.  `sizeof` = 28 (24-byte fixed part plus
the 4-byte `filename` array holding the start of the inline name). -/
structure DirEntry where
  object_offset : Int
  load_address : Nat
  exec_address : Nat
  size : Int
  flags : Nat
  reserved : Nat
  filename : List Nat
deriving DecidableEq

/-- Decode a directory entry at byte offset `off`. -/
def readDirEntry (buf : List Nat) (off : Nat) : DirEntry :=
  { object_offset := read32 buf off
    load_address := read32u buf (off + 4)
    exec_address := read32u buf (off + 8)
    size := read32 buf (off + 12)
    flags := read32u buf (off + 16)
    reserved := read32u buf (off + 20)
    filename := readCStr buf (off + 24) }

/-- Filetype extraction `(load_address >> 8) & 0xfff`
(stronghelp.c:206,211).  On the raw unsigned word this is
`(load_address / 256) % 4096`, which agrees with the C arithmetic-shift
result in the low 12 bits. -/
def stronghelp_filetype (load_address : Nat) : Nat :=
  (load_address / 256) % 4096

/-- Loop advance `((int)(sizeof(struct stronghelp_file_dir_entry) +
strlen(entry->filename))) & ~3` (stronghelp.c:283): clearing the low two
bits of the non-negative value `28 + len` rounds it down to a multiple
of 4. -/
def stronghelp_entry_advance (len : Nat) : Nat :=
  4 * ((28 + len) / 4)

/-- `ceil4 n`: `n` rounded up to a 4-byte word boundary (the
specification's description of the entry stride). -/
def ceil4 (n : Nat) : Nat := 4 * ((n + 3) / 4)

/-- Parse failures (each corresponds to a `msg_report` of an error token in
stronghelp.c or objectdb.c followed by returning `false`). -/
inductive ParseErr where
  | badFileMagic
  | missingRoot
  | badObjectMagic
  | badDirEntry
  | badOffset
  | badSize
  | offsetRange
  | resolveFail
  | noParent
deriving DecidableEq

/-- The tree of objects emitted into the object database by the parser
(names are raw byte strings from the container). -/
inductive SHTree where
  | file (name : List Nat) (size : Int) (filetype : Nat)
  | dir (name : List Nat) (children : List SHTree)

mutual

/--
Embedding of `stronghelp_process_object` (stronghelp.c:183-231), with
fuel (`none` = the mutual recursion did not complete).  `isRoot` is true
for the root invocation from `stronghelp_initialise_file` (where the
object-database parent is `NULL`, so `objectdb_add_stronghelp_file` would
fail with `MSG_NO_PARENT`; a root *directory* is accepted because the
database is empty at that point).  The data-block header is 8 bytes, the
directory-block header 12 bytes.
-/
def stronghelp_process_object (buf : List Nat) (entry : DirEntry)
    (isRoot : Bool) : Nat → Option (Except ParseErr SHTree)
  | 0 => none
  | fuel + 1 =>
    match stronghelp_get_block_address (some buf) entry.object_offset 8 with
    | .error _ => some (.error .resolveFail)
    | .ok a =>
      let dataWord := read32 buf a.toNat
      if entry.object_offset = 0 ∧ dataWord = STRONGHELP_FILE_WORD then
        if isRoot then some (.error .noParent)
        else some (.ok (.file entry.filename 0 (stronghelp_filetype entry.load_address)))
      else if dataWord = STRONGHELP_DATA_WORD then
        if isRoot then some (.error .noParent)
        else some (.ok (.file entry.filename (entry.size - 8)
          (stronghelp_filetype entry.load_address)))
      else if dataWord = STRONGHELP_DIR_WORD then
        let used := read32 buf (a.toNat + 8)
        match stronghelp_process_directory_entries buf (entry.object_offset + 12)
            (used - 12) fuel with
        | none => none
        | some (.error e) => some (.error e)
        | some (.ok children) => some (.ok (.dir entry.filename children))
      else some (.error .badObjectMagic)

/--
Embedding of the validation prologue of
`stronghelp_process_directory_entries` (stronghelp.c:243-267): offset and
length checks, then the end-of-block offset `end = offset + length`
compared against the file length.  (In the C source `length` is a
`size_t`, so its `length < 0` test is dead; the embedding keeps the test
on the signed value `used - 12` that the caller computes.)
-/
def stronghelp_process_directory_entries (buf : List Nat)
    (offset length : Int) : Nat → Option (Except ParseErr (List SHTree))
  | 0 => none
  | fuel + 1 =>
    if offset < 0 then some (.error .badOffset)
    else if length < 0 then some (.error .badSize)
    else if (buf.length : Int) ≤ offset + length then some (.error .offsetRange)
    else stronghelp_entries_loop buf (offset + length) offset fuel

/--
Embedding of the entry-iteration loop of
`stronghelp_process_directory_entries` (stronghelp.c:271-284): while
`offset < end`, resolve a 28-byte entry, process the object, advance by
`stronghelp_entry_advance` of the inline filename's length.
-/
def stronghelp_entries_loop (buf : List Nat) (endOff offset : Int) :
    Nat → Option (Except ParseErr (List SHTree))
  | 0 => none
  | fuel + 1 =>
    if offset < endOff then
      match stronghelp_get_block_address (some buf) offset 28 with
      | .error _ => some (.error .badDirEntry)
      | .ok a =>
        let entry := readDirEntry buf a.toNat
        match stronghelp_process_object buf entry false fuel with
        | none => none
        | some (.error e) => some (.error e)
        | some (.ok t) =>
          match stronghelp_entries_loop buf endOff
              (offset + (stronghelp_entry_advance entry.filename.length : Nat)) fuel with
          | none => none
          | some (.error e) => some (.error e)
          | some (.ok ts) => some (.ok (t :: ts))
    else some (.ok [])

end

/-- Overall outcome of `stronghelp_initialise_file`. -/
inductive InitOutcome where
  | ok (root : SHTree)
  | fail (e : ParseErr)
  | crash

/--
Embedding of `stronghelp_initialise_file` (stronghelp.c:135-173).

The C code resolves the 16-byte root header at offset 0 and then
immediately passes `header->help` to `msg_report` **without** checking the
resolve for `NULL`; when the resolve fails (buffer length ≤ 16) this
dereferences a null pointer, modelled as `.crash`.  The root directory
entry at offset 16 *is* checked (`MSG_MISSING_ROOT`).  The free-space walk
result is diagnostic only, but a non-terminating walk hangs the whole
initialisation (`none`).
-/
def stronghelp_initialise_file (buf : List Nat) (fuel : Nat) :
    Option InitOutcome :=
  match stronghelp_get_block_address (some buf) 0 16 with
  | .error _ => some .crash
  | .ok _ =>
    let help := read32 buf 0
    if help ≠ STRONGHELP_FILE_WORD then some (.fail .badFileMagic)
    else
      let free_offset := read32 buf 12
      match stronghelp_walk_free_space buf free_offset fuel with
      | none => none
      | some _ =>
        match stronghelp_get_block_address (some buf) 16 28 with
        | .error _ => some (.fail .missingRoot)
        | .ok a =>
          match stronghelp_process_object buf (readDirEntry buf a.toNat) true fuel with
          | none => none
          | some (.error e) => some (.fail e)
          | some (.ok t) => some (.ok t)

/--
**C2.** `stronghelp_get_block_address` fails with `noFile` when no buffer is
loaded; with a loaded buffer it fails with a bounds error (`badOffset` /
`offsetRange`) exactly when `offset < 0` or `offset + min_size` reaches or
exceeds the buffer length (the bound is exclusive: a block ending exactly
at EOF is rejected); otherwise it returns the address `base + offset`, and
every byte of the requested block lies strictly inside the buffer.
-/
theorem stronghelp_get_block_address_contract (file : Option (List Nat))
    (offset : Int) (min_size : Nat) :
    (file = none →
      stronghelp_get_block_address file offset min_size = .error .noFile) ∧
    (∀ buf, file = some buf →
      ((offset < 0 →
        stronghelp_get_block_address file offset min_size = .error .badOffset) ∧
       (0 ≤ offset → (buf.length : Int) ≤ offset + min_size →
        stronghelp_get_block_address file offset min_size = .error .offsetRange) ∧
       (0 ≤ offset → offset + min_size < (buf.length : Int) →
        stronghelp_get_block_address file offset min_size = .ok offset ∧
          ∀ i : Int, offset ≤ i → i < offset + min_size →
            0 ≤ i ∧ i < (buf.length : Int)))) := by
  constructor
  · intro h; subst h; rfl
  · intro buf h; subst h
    refine ⟨fun hneg => ?_, fun hpos hout => ?_, fun hpos hin => ?_⟩
    · simp [stronghelp_get_block_address, hneg]
    · simp [stronghelp_get_block_address, not_lt.mpr hpos, hout]
    · refine ⟨?_, fun i h1 h2 => ⟨le_trans hpos h1, lt_of_lt_of_le h2 ?_⟩⟩
      · simp [stronghelp_get_block_address, not_lt.mpr hpos, not_le.mpr hin]
      · omega

/-- Witness for `stronghelp_get_block_address_contract` at a concrete
buffer: a 4-byte buffer, offset 1, size 2 resolves to 1. -/
theorem stronghelp_get_block_address_contract_witness :
    stronghelp_get_block_address (some [10, 11, 12, 13]) 1 2 = .ok 1 :=
  (((stronghelp_get_block_address_contract (some [10, 11, 12, 13]) 1 2).2
    [10, 11, 12, 13] rfl).2.2 (by decide) (by decide)).1

/--
**C3.** On a buffer too short for the 16-byte root header (here: exactly 16
zero bytes, so the bounds-checked resolve of offset 0 fails), the C code
dereferences the unresolved `header` pointer (`header->help`) instead of
failing cleanly — the initialisation crashes.  On a large-enough buffer
whose magic word is not `HELP` (here: 20 zero bytes) it correctly fails
with `badFileMagic`.  Neither outcome depends on the fuel.
-/
theorem stronghelp_initialise_file_short_buffer_crashes :
    (∀ fuel, stronghelp_initialise_file (List.replicate 16 0) fuel = some .crash) ∧
    (∀ fuel, stronghelp_initialise_file (List.replicate 20 0) fuel =
      some (.fail .badFileMagic)) :=
  ⟨fun _ => rfl, fun _ => rfl⟩

/-- The C advance `(28 + len) & ~3` equals the specification's stride
`ceil4(24 + (len + 1))`: fixed 24-byte entry header plus the
NUL-terminated name, rounded up to a word boundary. -/
theorem stronghelp_entry_advance_eq_ceil4 (len : Nat) :
    stronghelp_entry_advance len = ceil4 (24 + len + 1) := by
  unfold stronghelp_entry_advance ceil4
  omega

/--
**C10.** Entry iteration: when the running offset has reached the end of
the block the loop stops (returning the entries collected so far), and
otherwise — when the entry resolves and its object processes successfully —
the loop continues at `offset + ceil4(24 + filename_length + 1)`, i.e. it
advances by the fixed 24-byte directory-entry header plus the
NUL-terminated inline filename, rounded up to a 4-byte word boundary.
-/
theorem stronghelp_entries_loop_iteration (buf : List Nat)
    (endOff offset : Int) (fuel : Nat) :
    (¬ offset < endOff →
      stronghelp_entries_loop buf endOff offset (fuel + 1) = some (.ok [])) ∧
    (∀ a t, offset < endOff →
      stronghelp_get_block_address (some buf) offset 28 = .ok a →
      stronghelp_process_object buf (readDirEntry buf a.toNat) false fuel =
        some (.ok t) →
      stronghelp_entries_loop buf endOff offset (fuel + 1) =
        (stronghelp_entries_loop buf endOff
          (offset + (ceil4 (24 + (readDirEntry buf a.toNat).filename.length + 1) : Nat))
          fuel).map (fun r => r.map (fun ts => t :: ts))) := by
  constructor
  · intro h
    rw [stronghelp_entries_loop, if_neg h]
  · intro a t hlt hget hproc
    rw [stronghelp_entries_loop, if_pos hlt, hget]
    simp only [hproc, ← stronghelp_entry_advance_eq_ceil4]
    cases stronghelp_entries_loop buf endOff
        (offset + (stronghelp_entry_advance (readDirEntry buf a.toNat).filename.length : Nat))
        fuel with
    | none => rfl
    | some r => cases r with
      | error e => rfl
      | ok ts => rfl

/-- A 52-byte container for the `C10` witness: a `HELP` word at offset 0
and one directory entry at offset 16 with `object_offset` 0 (the
zero-length-file special case) and the 1-character filename `A`. -/
def stronghelp_entry_witness_buffer : List Nat :=
  [72, 69, 76, 80] ++ List.replicate 12 0 ++ [0, 0, 0, 0] ++
    List.replicate 20 0 ++ [65, 0] ++ List.replicate 10 0

/-- Witness for `stronghelp_entries_loop_iteration`: one concrete entry
with a 1-byte filename advances the loop offset from 16 to
16 + ceil4(24 + 1 + 1) = 44. -/
theorem stronghelp_entries_loop_iteration_witness :
    stronghelp_entries_loop stronghelp_entry_witness_buffer 17 16 2 =
      (stronghelp_entries_loop stronghelp_entry_witness_buffer 17
        (16 + (ceil4 (24 + (readDirEntry stronghelp_entry_witness_buffer
          ((16 : Int).toNat)).filename.length + 1) : Nat)) 1).map
        (fun r => r.map (fun ts => SHTree.file [65] 0 0 :: ts)) :=
  (stronghelp_entries_loop_iteration stronghelp_entry_witness_buffer 17 16 1).2
    16 (SHTree.file [65] 0 0) (by decide) rfl rfl

/--
**C4.** The free-space walk does **not** terminate on a self-referential
chain: on `stronghelp_cyclic_free_buffer` (a valid `FREE` block at offset 0
whose `next_offset` is 0) the walk exhausts any amount of fuel, i.e. the C
original recurses forever instead of stopping with an error as the
specification requires.
-/
theorem stronghelp_walk_free_space_cycle_diverges :
    ∀ fuel, stronghelp_walk_free_space stronghelp_cyclic_free_buffer 0 fuel = none := by
  intro fuel
  induction fuel with
  | zero => rfl
  | succ n ih =>
    show stronghelp_walk_free_space stronghelp_cyclic_free_buffer 0 (n + 1) = none
    rw [stronghelp_walk_free_space]
    norm_num [stronghelp_get_block_address, stronghelp_cyclic_free_buffer,
      read32, read32u, byteAt, toInt32, STRONGHELP_FREE_WORD]
    exact ih

/-! ## objectdb.c : data model -/

/-- `enum objectdb_status` (objectdb.c:48-56). -/
inductive ObjStatus where
  | unknown
  | identical
  | added
  | deleted
  | typeChanged
  | sizeChanged
  | contentChanged
deriving DecidableEq

/-- `struct objectdb_details` (objectdb.c:60-65): one side (StrongHelp or
disc) of an object.  `name = none` models a `NULL` name pointer, meaning
the side is absent; `data` is the StrongHelp payload bytes (`NULL` on the
disc side). -/
structure ObjDetails where
  name : Option String
  size : Nat
  filetype : Nat
  data : Option (List Nat)
deriving DecidableEq

/-- `struct objectdb_object` (objectdb.c:71-83).  The sibling `next`
pointers become the `directories` / `files` lists; the `parent`
back-pointer is replaced by passing the ancestor chain to the functions
that need it. -/
inductive Obj where
  | node (name : String) (status : ObjStatus) (stronghelp disc : ObjDetails)
      (directories files : List Obj)

/-- Canonical (format-agnostic) name. -/
def Obj.name : Obj → String
  | .node n _ _ _ _ _ => n

/-- Computed change status. -/
def Obj.status : Obj → ObjStatus
  | .node _ s _ _ _ _ => s

/-- StrongHelp-side record. -/
def Obj.stronghelp : Obj → ObjDetails
  | .node _ _ sh _ _ _ => sh

/-- Disc-side record. -/
def Obj.disc : Obj → ObjDetails
  | .node _ _ _ d _ _ => d

/-- Child directories (name-ordered sibling list). -/
def Obj.directories : Obj → List Obj
  | .node _ _ _ _ ds _ => ds

/-- Child files (name-ordered sibling list). -/
def Obj.files : Obj → List Obj
  | .node _ _ _ _ _ fs => fs

/-- `OBJECTDB_TYPE_DIRECTORY` (objectdb.h). -/
def OBJECTDB_TYPE_DIRECTORY : Nat := 0x1000

/-- `OBJECTDB_TYPE_UNKNOWN` (objectdb.h). -/
def OBJECTDB_TYPE_UNKNOWN : Nat := 0xffff

/--
Embedding of `objectdb_find_object` (objectdb.c:324-332): linear scan of a
sibling list that skips names below the target (via `strcmp`; node names
are never `NULL` in the database, so the `list->name == NULL` guard is
vacuous) and stops at the first name ≥ the target.
-/
def objectdb_find_object : List Obj → String → Option Obj
  | [], _ => none
  | o :: rest, name =>
    if o.name < name then objectdb_find_object rest name
    else if o.name = name then some o
    else none

/--
Embedding of `objectdb_link_object` (objectdb.c:341-351): insert a node
into a sibling list immediately before the first entry whose name is ≥ the
new node's name.
-/
def objectdb_link_object : List Obj → Obj → List Obj
  | [], obj => [obj]
  | x :: rest, obj =>
    if x.name < obj.name then x :: objectdb_link_object rest obj
    else obj :: x :: rest

/-- In-place mutation through the pointer returned by
`objectdb_find_object`: apply `f` to the first node of the list whose name
is matched by the same scan. -/
def objectdb_update_object (f : Obj → Obj) : List Obj → String → List Obj
  | [], _ => []
  | x :: rest, name =>
    if x.name < name then x :: objectdb_update_object f rest name
    else if x.name = name then f x :: rest
    else x :: rest

/-- Tree-level errors (`MSG_TOO_MANY_ROOTS`, `MSG_NO_ROOT`,
`MSG_NO_PARENT`). -/
inductive DBErr where
  | tooManyRoots
  | noRoot
  | noParent
deriving DecidableEq

/-- A freshly `malloc`ed StrongHelp directory node
(objectdb.c:132-153). -/
def objectdb_new_stronghelp_directory (name : String) : Obj :=
  .node name .unknown
    ⟨some name, 0, OBJECTDB_TYPE_DIRECTORY, none⟩
    ⟨none, 0, OBJECTDB_TYPE_UNKNOWN, none⟩ [] []

/-- A freshly `malloc`ed StrongHelp file node (objectdb.c:185-206). -/
def objectdb_new_stronghelp_file (name : String) (size : Nat)
    (filetype : Nat) (data : List Nat) : Obj :=
  .node name .unknown
    ⟨some name, size, filetype, some data⟩
    ⟨none, 0, OBJECTDB_TYPE_UNKNOWN, none⟩ [] []

/-- A freshly `malloc`ed disc-only node before its disc side is filled in
(objectdb.c:234-250 / 287-303): canonical name set, StrongHelp side
absent. -/
def objectdb_new_disc_node (name : String) : Obj :=
  .node name .unknown
    ⟨none, 0, OBJECTDB_TYPE_UNKNOWN, none⟩
    ⟨none, 0, OBJECTDB_TYPE_UNKNOWN, none⟩ [] []

/-- The disc-side mutation of `objectdb_add_disc_directory`
(objectdb.c:256-259). -/
def objectdb_set_disc_directory (realName : String) : Obj → Obj
  | .node n st sh _ ds fs =>
    .node n st sh ⟨some realName, 0, OBJECTDB_TYPE_DIRECTORY, none⟩ ds fs

/-- The disc-side mutation of `objectdb_add_disc_file`
(objectdb.c:308-311). -/
def objectdb_set_disc_file (realName : String) (size : Nat) (filetype : Nat) :
    Obj → Obj
  | .node n st sh _ ds fs =>
    .node n st sh ⟨some realName, size, filetype, none⟩ ds fs

/-- Result of an insertion: the node the C function returns, the updated
root slot (`objectdb_root`), and the updated sibling list of the parent
(when a parent was given). -/
structure AddResult where
  obj : Obj
  root : Option Obj
  parentList : Option (List Obj)

/--
Embedding of `objectdb_add_stronghelp_directory` (objectdb.c:123-163).
The global `objectdb_root` is the `root` argument; `parent` is the parent
directory's `directories` sibling list, or `none` for a root
registration.
-/
def objectdb_add_stronghelp_directory (root : Option Obj)
    (parent : Option (List Obj)) (name : String) : Except DBErr AddResult :=
  match parent, root with
  | none, some _ => .error .tooManyRoots
  | none, none =>
    let dir := objectdb_new_stronghelp_directory name
    .ok ⟨dir, some dir, none⟩
  | some dirs, _ =>
    let dir := objectdb_new_stronghelp_directory name
    .ok ⟨dir, root, some (objectdb_link_object dirs dir)⟩

/-- Embedding of `objectdb_add_stronghelp_file` (objectdb.c:176-211):
`parent` is the parent directory's `files` sibling list. -/
def objectdb_add_stronghelp_file (root : Option Obj)
    (parent : Option (List Obj)) (name : String) (size : Nat)
    (filetype : Nat) (data : List Nat) : Except DBErr AddResult :=
  match parent with
  | none => .error .noParent
  | some files =>
    let file := objectdb_new_stronghelp_file name size filetype data
    .ok ⟨file, root, some (objectdb_link_object files file)⟩

/--
Embedding of `objectdb_add_disc_directory` (objectdb.c:222-262).  With no
parent the disc record is attached to `objectdb_root` (no name lookup);
with a parent, a by-name lookup over the parent's `directories` list
either finds the node to attach to or a new disc-only node is created and
linked.
-/
def objectdb_add_disc_directory (root : Option Obj)
    (parent : Option (List Obj)) (name realName : String) :
    Except DBErr AddResult :=
  match parent, root with
  | none, none => .error .noRoot
  | none, some r =>
    let r' := objectdb_set_disc_directory realName r
    .ok ⟨r', some r', none⟩
  | some dirs, _ =>
    match objectdb_find_object dirs name with
    | some d =>
      .ok ⟨objectdb_set_disc_directory realName d, root,
        some (objectdb_update_object (objectdb_set_disc_directory realName) dirs name)⟩
    | none =>
      let d := objectdb_set_disc_directory realName (objectdb_new_disc_node name)
      .ok ⟨d, root, some (objectdb_link_object dirs d)⟩

/--
Embedding of `objectdb_add_disc_file` (objectdb.c:275-314): by-name lookup
over the parent's `files` list, attaching to the found node or creating
and linking a new disc-only node.
-/
def objectdb_add_disc_file (root : Option Obj) (parent : Option (List Obj))
    (name realName : String) (size : Nat) (filetype : Nat) :
    Except DBErr AddResult :=
  match parent with
  | none => .error .noParent
  | some files =>
    match objectdb_find_object files name with
    | some f =>
      .ok ⟨objectdb_set_disc_file realName size filetype f, root,
        some (objectdb_update_object (objectdb_set_disc_file realName size filetype)
          files name)⟩
    | none =>
      let f := objectdb_set_disc_file realName size filetype (objectdb_new_disc_node name)
      .ok ⟨f, root, some (objectdb_link_object files f)⟩

/-! ## Path builder -/

/-- `enum objectdb_path_type` (objectdb.h). -/
inductive PathType where
  | agnostic
  | stronghelpSide
  | discSide
deriving DecidableEq

/-- Result of an operation that can hit undefined behaviour in the C
source: `crash` marks a reachable `strlen(NULL)` / null dereference. -/
inductive Res (α : Type) where
  | ok (val : α)
  | crash

/-- The `switch (type)` of `objectdb_get_dir_path` (objectdb.c:785-795):
the name a node contributes to a path of the given view. -/
def objectdb_view_name (o : Obj) : PathType → Option String
  | .agnostic => some o.name
  | .stronghelpSide => o.stronghelp.name
  | .discSide => o.disc.name

/-- `FILES_PATH_SEPARATOR` on Linux (files.h). -/
def FILES_PATH_SEPARATOR : String := "/"

/--
Embedding of `objectdb_get_path` / `objectdb_get_dir_path`
(objectdb.c:756-818).  The C function walks `parent` pointers from the
node to the root and concatenates one name per node, separator-joined with
no trailing separator; here the root-to-node chain is passed explicitly.
`strlen(part)` is executed *before* any null check, so a node whose name
for the requested view is `NULL` makes the C code call `strlen(NULL)`:
modelled as `.crash`.  (`malloc` failure, the only `NULL` return of the
original, is not modelled.)
-/
def objectdb_get_path (chain : List Obj) (type : PathType)
    (separator : String) : Res String :=
  match chain with
  | [] => .ok ""
  | o :: rest =>
    match objectdb_view_name o type with
    | none => .crash
    | some part =>
      match rest with
      | [] => .ok part
      | _ :: _ =>
        match objectdb_get_path rest type separator with
        | .crash => .crash
        | .ok tail => .ok (part ++ separator ++ tail)

/-! ## Byte-wise content comparison and status computation -/

/--
The comparison loop of `objectdb_compare_files` (objectdb.c:447-450):
`while (i < size && !feof(file) && identical)` compare
`stronghelp.data[i++]` against `(char) fgetc(file)`.  `fgetc` past the end
of the disc file returns `EOF`; cast to a byte it compares as `255`, and
the `feof` flag becomes true only after such a read.
-/
def objectdb_compare_loop (shData disc : List Nat) (size : Nat) :
    Nat → Nat → Bool → Bool → Bool
  | i, pos, eof, identical =>
    if _h : i < size ∧ eof = false ∧ identical = true then
      let c := if pos < disc.length then disc.getD pos 0 else 255
      let pos' := if pos < disc.length then pos + 1 else pos
      let eof' := if pos < disc.length then false else true
      let identical' := if shData.getD i 0 = c then identical else false
      objectdb_compare_loop shData disc size (i + 1) pos' eof' identical'
    else identical
termination_by i => size - i
decreasing_by
  simp_wf
  omega

/--
Embedding of `objectdb_compare_files` (objectdb.c:422-455).

`fs` models the disc filesystem: it maps a disc path to the openable
file's bytes, or `none` when `fopen` fails.  The result pairs the
comparison outcome with the *error-reported* flag of msg.c
(`MSG_OPEN_FAILED` is an `MSG_ERROR`-level message and sets the global
`msg_error_reported`; the missing data / missing disc-name early-out at
objectdb.c:429-430 returns `false` silently).  `chain` is the ancestor
chain from the root down to the file's parent.
-/
def objectdb_compare_files (fs : String → Option (List Nat))
    (chain : List Obj) (o : Obj) : Res (Bool × Bool) :=
  if o.stronghelp.data = none ∨ o.disc.name = none then .ok (false, false)
  else
    match objectdb_get_path (chain ++ [o]) .discSide FILES_PATH_SEPARATOR with
    | .crash => .crash
    | .ok filename =>
      match fs filename with
      | none => .ok (false, true)
      | some content =>
        .ok (objectdb_compare_loop (o.stronghelp.data.getD []) content
          o.stronghelp.size 0 0 false true, false)

/-- The per-file status classification of `objectdb_check_directory_status`
(objectdb.c:388-399), in source order: deleted / added / type / size /
content / identical.  Returns the status together with the error-reported
flag contributed by the comparison. -/
def objectdb_check_file_status (fs : String → Option (List Nat))
    (chain : List Obj) (o : Obj) : Res (ObjStatus × Bool) :=
  if o.stronghelp.name = none ∧ o.disc.name ≠ none then .ok (.deleted, false)
  else if o.stronghelp.name ≠ none ∧ o.disc.name = none then .ok (.added, false)
  else if o.stronghelp.filetype ≠ o.disc.filetype then .ok (.typeChanged, false)
  else if o.stronghelp.size ≠ o.disc.size then .ok (.sizeChanged, false)
  else
    match objectdb_compare_files fs chain o with
    | .crash => .crash
    | .ok (identical, err) =>
      .ok (if identical = false then .contentChanged else .identical, err)

/-- The directory's own status (objectdb.c:379-384): presence-only. -/
def objectdb_dir_own_status (sh disc : ObjDetails) : ObjStatus :=
  if sh.name = none ∧ disc.name ≠ none then .deleted
  else if sh.name ≠ none ∧ disc.name = none then .added
  else .identical

/-- Replace a node's computed status. -/
def objectdb_set_status (st : ObjStatus) : Obj → Obj
  | .node n _ sh d ds fs => .node n st sh d ds fs

/-- The file loop of `objectdb_check_directory_status`
(objectdb.c:386-402): classify every file in the sibling list, returning
the updated list and the accumulated error-reported flag. -/
def objectdb_check_files (fs : String → Option (List Nat))
    (chain : List Obj) : List Obj → Res (List Obj × Bool)
  | [] => .ok ([], false)
  | f :: rest =>
    match objectdb_check_file_status fs chain f with
    | .crash => .crash
    | .ok (st, e1) =>
      match objectdb_check_files fs chain rest with
      | .crash => .crash
      | .ok (rest', e2) => .ok (objectdb_set_status st f :: rest', e1 || e2)

mutual

/--
Embedding of `objectdb_check_directory_status` (objectdb.c:372-412): set
the directory's own presence-only status, classify its files, then recurse
into its subdirectories.  Result: updated node, the C `bool` return value,
and the accumulated error-reported flag.  (The `dir == NULL` early-`false`
only applies to the top-level call, see `objectdb_check_status`; recursive
calls always receive a node.)
-/
def objectdb_check_directory_status (fs : String → Option (List Nat))
    (chain : List Obj) : Obj → Res (Obj × Bool × Bool)
  | .node name _ sh disc dirs files =>
    let st := objectdb_dir_own_status sh disc
    let self := Obj.node name st sh disc dirs files
    match objectdb_check_files fs (chain ++ [self]) files with
    | .crash => .crash
    | .ok (files', e1) =>
      match objectdb_check_dir_list fs (chain ++ [self]) dirs with
      | .crash => .crash
      | .ok (dirs', ok2, e2) =>
        .ok (Obj.node name st sh disc dirs' files', ok2, e1 || e2)

/-- The subdirectory loop of `objectdb_check_directory_status`
(objectdb.c:404-409): recurse into each child, stopping at the first
`false` return. -/
def objectdb_check_dir_list (fs : String → Option (List Nat))
    (chain : List Obj) : List Obj → Res (List Obj × Bool × Bool)
  | [] => .ok ([], true, false)
  | d :: rest =>
    match objectdb_check_directory_status fs chain d with
    | .crash => .crash
    | .ok (d', ok1, e1) =>
      if ok1 = false then .ok (d' :: rest, false, e1)
      else
        match objectdb_check_dir_list fs chain rest with
        | .crash => .crash
        | .ok (rest', ok2, e2) => .ok (d' :: rest', ok2, e1 || e2)

end

/-- Embedding of `objectdb_check_status` (objectdb.c:359-362): run the
recursive status check from `objectdb_root`; a missing root returns
`false`. -/
def objectdb_check_status (fs : String → Option (List Nat))
    (root : Option Obj) : Res (Option Obj × Bool × Bool) :=
  match root with
  | none => .ok (none, false, false)
  | some r =>
    match objectdb_check_directory_status fs [] r with
    | .crash => .crash
    | .ok (r', ok, e) => .ok (some r', ok, e)

/-- Sample file node present on both sides with equal filetype and size
(StrongHelp bytes `[7]`, disc side openable or not depending on the
filesystem oracle). -/
def objectdb_sample_file : Obj :=
  .node "f" .unknown ⟨some "f", 1, 0xfff, some [7]⟩ ⟨some "f", 1, 0xfff, none⟩ [] []

/-- Sample root directory present on both sides, holding
`objectdb_sample_file`. -/
def objectdb_sample_root : Obj :=
  .node "r" .unknown ⟨some "r", 0, OBJECTDB_TYPE_DIRECTORY, none⟩
    ⟨some "r", 0, OBJECTDB_TYPE_DIRECTORY, none⟩ [] [objectdb_sample_file]

/-- Sample manual-only node: present in the StrongHelp manual, no disc
side (so no disc name). -/
def objectdb_sample_manual_only : Obj :=
  .node "m" .unknown ⟨some "m", 0, OBJECTDB_TYPE_DIRECTORY, none⟩
    ⟨none, 0, OBJECTDB_TYPE_UNKNOWN, none⟩ [] []

/--
**C1.** The status pass assigns each examined file exactly one status, in
the fixed priority order: `deleted` when the StrongHelp side is absent and
the disc side present; else `added` when the StrongHelp side is present
and the disc side absent; else `typeChanged` when the filetypes differ
(regardless of sizes or content — in particular when the size differs as
well); else `sizeChanged` when the sizes differ; else `contentChanged`
when the byte-for-byte comparison fails, and `identical` when it succeeds.
The last conjunct ties the classifier to the file loop of the status walk.
-/
theorem objectdb_file_status_priority (fs : String → Option (List Nat))
    (chain : List Obj) (o : Obj) :
    (o.stronghelp.name = none ∧ o.disc.name ≠ none →
      objectdb_check_file_status fs chain o = .ok (.deleted, false)) ∧
    (o.stronghelp.name ≠ none ∧ o.disc.name = none →
      objectdb_check_file_status fs chain o = .ok (.added, false)) ∧
    (¬(o.stronghelp.name = none ∧ o.disc.name ≠ none) →
      ¬(o.stronghelp.name ≠ none ∧ o.disc.name = none) →
      o.stronghelp.filetype ≠ o.disc.filetype →
      objectdb_check_file_status fs chain o = .ok (.typeChanged, false)) ∧
    (¬(o.stronghelp.name = none ∧ o.disc.name ≠ none) →
      ¬(o.stronghelp.name ≠ none ∧ o.disc.name = none) →
      o.stronghelp.filetype = o.disc.filetype →
      o.stronghelp.size ≠ o.disc.size →
      objectdb_check_file_status fs chain o = .ok (.sizeChanged, false)) ∧
    (¬(o.stronghelp.name = none ∧ o.disc.name ≠ none) →
      ¬(o.stronghelp.name ≠ none ∧ o.disc.name = none) →
      o.stronghelp.filetype = o.disc.filetype →
      o.stronghelp.size = o.disc.size →
      ∀ idn err, objectdb_compare_files fs chain o = .ok (idn, err) →
        objectdb_check_file_status fs chain o =
          .ok (if idn then .identical else .contentChanged, err)) ∧
    (∀ st err, objectdb_check_file_status fs chain o = .ok (st, err) →
      objectdb_check_files fs chain [o] =
        .ok ([objectdb_set_status st o], err)) := by
  refine ⟨fun h => ?_, fun h => ?_, fun h1 h2 h3 => ?_, fun h1 h2 h3 h4 => ?_,
    fun h1 h2 h3 h4 idn err hc => ?_, fun st err h => ?_⟩
  · rw [objectdb_check_file_status, if_pos h]
  · rw [objectdb_check_file_status, if_neg (by tauto), if_pos h]
  · rw [objectdb_check_file_status, if_neg h1, if_neg h2, if_pos h3]
  · rw [objectdb_check_file_status, if_neg h1, if_neg h2, if_neg (by tauto),
      if_pos h4]
  · rw [objectdb_check_file_status, if_neg h1, if_neg h2, if_neg (by tauto),
      if_neg (by tauto), hc]
    cases idn <;> simp
  · rw [objectdb_check_files, h, objectdb_check_files]
    simp

/-- Witness for `objectdb_file_status_priority`: a file whose filetype
*and* size both differ is classified `typeChanged` (type takes priority),
and the file loop records exactly that status. -/
theorem objectdb_file_status_priority_witness :
    objectdb_check_file_status (fun _ => none) []
        (.node "f" .unknown ⟨some "f", 3, 0xffd, some [7, 8, 9]⟩
          ⟨some "f,fff", 5, 0xfff, none⟩ [] []) =
      .ok (.typeChanged, false) :=
  (objectdb_file_status_priority (fun _ => none) []
    (.node "f" .unknown ⟨some "f", 3, 0xffd, some [7, 8, 9]⟩
      ⟨some "f,fff", 5, 0xfff, none⟩ [] [])).2.2.1
    (by simp [Obj.stronghelp, Obj.disc]) (by simp [Obj.stronghelp, Obj.disc])
    (by simp [Obj.stronghelp, Obj.disc])

/--
**C5 (counterexample).** When the disc file of a both-sides node cannot be
opened (filesystem oracle returns `none` for every path), the status pass
*succeeds* (`true`) and records the node as `contentChanged`: the open
failure is reported as an error message (flag `true`) but it is **not**
propagated as a failure of the status pass, contradicting the claim.
-/
theorem objectdb_open_failure_counterexample :
    objectdb_check_status (fun _ => none) (some objectdb_sample_root) =
      .ok (some (.node "r" .identical ⟨some "r", 0, OBJECTDB_TYPE_DIRECTORY, none⟩
        ⟨some "r", 0, OBJECTDB_TYPE_DIRECTORY, none⟩ []
        [.node "f" .contentChanged ⟨some "f", 1, 0xfff, some [7]⟩
          ⟨some "f", 1, 0xfff, none⟩ [] []]), true, true) := by
  rfl

/--
**C5 (amended).** When the disc-side file of a both-sides node (equal
filetype and size) cannot be opened, `objectdb_compare_files` reports
`MSG_OPEN_FAILED` — an error-level message that sets the global error flag,
so the process eventually exits non-zero — but returns `false`, so the
classifier records the node's status as `contentChanged` and the file loop
of the status pass carries on normally.
-/
theorem objectdb_open_failure_amended (fs : String → Option (List Nat))
    (chain : List Obj) (o : Obj) (p : String) :
    o.stronghelp.name ≠ none → o.disc.name ≠ none →
    o.stronghelp.filetype = o.disc.filetype →
    o.stronghelp.size = o.disc.size →
    o.stronghelp.data ≠ none →
    objectdb_get_path (chain ++ [o]) .discSide FILES_PATH_SEPARATOR = .ok p →
    fs p = none →
    objectdb_check_file_status fs chain o = .ok (.contentChanged, true) ∧
    objectdb_check_files fs chain [o] =
      .ok ([objectdb_set_status .contentChanged o], true) := by
  intro hsh hdisc hft hsz hdata hpath hopen
  have hcmp : objectdb_compare_files fs chain o = .ok (false, true) := by
    rw [objectdb_compare_files, if_neg (by tauto), hpath]
    simp [hopen]
  have hcls : objectdb_check_file_status fs chain o = .ok (.contentChanged, true) := by
    rw [objectdb_check_file_status, if_neg (by tauto), if_neg (by tauto),
      if_neg (by tauto), if_neg (by tauto), hcmp]
    rfl
  refine ⟨hcls, ?_⟩
  rw [objectdb_check_files, hcls, objectdb_check_files]
  simp

/-- Witness for `objectdb_open_failure_amended` at the concrete sample
tree with an always-failing filesystem. -/
theorem objectdb_open_failure_amended_witness :
    objectdb_check_file_status (fun _ => none) [objectdb_sample_root]
        objectdb_sample_file = .ok (.contentChanged, true) ∧
      objectdb_check_files (fun _ => none) [objectdb_sample_root]
        [objectdb_sample_file] =
        .ok ([objectdb_set_status .contentChanged objectdb_sample_file], true) :=
  objectdb_open_failure_amended (fun _ => none) [objectdb_sample_root]
    objectdb_sample_file "r/f" (by simp [objectdb_sample_file, Obj.stronghelp])
    (by simp [objectdb_sample_file, Obj.disc])
    (by simp [objectdb_sample_file, Obj.stronghelp, Obj.disc])
    (by simp [objectdb_sample_file, Obj.stronghelp, Obj.disc])
    (by simp [objectdb_sample_file, Obj.stronghelp]) (by rfl) rfl

/--
**C6.** The path builder crashes instead of failing cleanly: requesting
the disc path of a manual-only node (whose disc name is still `NULL`)
makes the C code call `strlen(NULL)` — modelled as `.crash` — rather than
propagating an error.  When every node on the chain has a name for the
requested view, the separator-joined path (no trailing separator) is
returned.
-/
theorem objectdb_get_path_missing_name_crashes :
    objectdb_get_path [objectdb_sample_manual_only] .discSide
      FILES_PATH_SEPARATOR = .crash ∧
    objectdb_get_path [objectdb_sample_root, objectdb_sample_manual_only]
      .discSide FILES_PATH_SEPARATOR = .crash ∧
    objectdb_get_path [objectdb_sample_root, objectdb_sample_file] .discSide
      FILES_PATH_SEPARATOR = .ok "r/f" ∧
    objectdb_get_path [objectdb_sample_root, objectdb_sample_manual_only]
      .agnostic "." = .ok "r.m" :=
  ⟨rfl, rfl, rfl, rfl⟩

/-- The scan of `objectdb_find_object` only ever returns a node whose
canonical name equals the requested name. -/
theorem objectdb_find_object_name (l : List Obj) (n : String) :
    ∀ d, objectdb_find_object l n = some d → d.name = n := by
  induction l with
  | nil => intro d h; simp [objectdb_find_object] at h
  | cons x rest ih =>
    intro d h
    rw [objectdb_find_object] at h
    by_cases hlt : x.name < n
    · exact ih d (by simpa [hlt] using h)
    · by_cases heq : x.name = n
      · simp [hlt, heq] at h; rw [← h]; exact heq
      · simp [hlt, heq] at h

/-- Mutating a found node in place does not change the length of the
sibling list. -/
theorem objectdb_update_object_length (f : Obj → Obj) (l : List Obj)
    (n : String) : (objectdb_update_object f l n).length = l.length := by
  induction l with
  | nil => rfl
  | cons x rest ih =>
    rw [objectdb_update_object]
    by_cases hlt : x.name < n
    · simp [hlt, ih]
    · by_cases heq : x.name = n <;> simp [hlt, heq]

/-- Linking a new node grows the sibling list by exactly one. -/
theorem objectdb_link_object_length (l : List Obj) (o : Obj) :
    (objectdb_link_object l o).length = l.length + 1 := by
  induction l with
  | nil => rfl
  | cons x rest ih =>
    rw [objectdb_link_object]
    by_cases hlt : x.name < o.name <;> simp [hlt, ih]

/--
**C8 (counterexample).** At the root, a disc-side insertion does *not*
match by name: with the single root node named `"a"` already registered,
`objectdb_add_disc_directory` for the name `"b"` attaches the disc record
to the node named `"a"` — an existing node whose canonical name does not
equal the given name, contradicting the claim's "holds for the root as
well".
-/
theorem objectdb_add_disc_directory_root_ignores_name :
    (objectdb_add_disc_directory (some (objectdb_new_stronghelp_directory "a"))
        none "b" "rb").map (fun res => res.obj.name) = .ok "a" ∧
      ("a" : String) ≠ "b" :=
  ⟨rfl, by decide⟩

/--
**C8 (amended).** For children of a given parent, a disc-side insertion
performs a by-name lookup in the appropriate sibling list (directories and
files are looked up in separate lists): if a node of the given canonical
name exists, the disc record is attached to it in place and no node is
created (the list keeps its length); otherwise a new disc-only node
carrying the given name (with an absent StrongHelp side) is created and
linked.  At the root, however, the disc record is attached to the existing
root node unconditionally, without comparing names.
-/
theorem objectdb_add_disc_by_name_lookup (rt : Option Obj) (r : Obj)
    (dirs files : List Obj) (name realName : String) (size filetype : Nat) :
    ((∀ d, objectdb_find_object dirs name = some d →
        objectdb_add_disc_directory rt (some dirs) name realName =
          .ok ⟨objectdb_set_disc_directory realName d, rt,
            some (objectdb_update_object (objectdb_set_disc_directory realName)
              dirs name)⟩ ∧
        d.name = name ∧
        (objectdb_update_object (objectdb_set_disc_directory realName)
          dirs name).length = dirs.length) ∧
      (objectdb_find_object dirs name = none →
        objectdb_add_disc_directory rt (some dirs) name realName =
          .ok ⟨objectdb_set_disc_directory realName (objectdb_new_disc_node name), rt,
            some (objectdb_link_object dirs
              (objectdb_set_disc_directory realName (objectdb_new_disc_node name)))⟩ ∧
        (objectdb_set_disc_directory realName (objectdb_new_disc_node name)).name = name ∧
        (objectdb_set_disc_directory realName (objectdb_new_disc_node name)).stronghelp.name
          = none ∧
        (objectdb_link_object dirs
          (objectdb_set_disc_directory realName (objectdb_new_disc_node name))).length
          = dirs.length + 1)) ∧
    ((∀ f, objectdb_find_object files name = some f →
        objectdb_add_disc_file rt (some files) name realName size filetype =
          .ok ⟨objectdb_set_disc_file realName size filetype f, rt,
            some (objectdb_update_object (objectdb_set_disc_file realName size filetype)
              files name)⟩ ∧
        f.name = name ∧
        (objectdb_update_object (objectdb_set_disc_file realName size filetype)
          files name).length = files.length) ∧
      (objectdb_find_object files name = none →
        objectdb_add_disc_file rt (some files) name realName size filetype =
          .ok ⟨objectdb_set_disc_file realName size filetype (objectdb_new_disc_node name),
            rt,
            some (objectdb_link_object files
              (objectdb_set_disc_file realName size filetype
                (objectdb_new_disc_node name)))⟩ ∧
        (objectdb_link_object files
          (objectdb_set_disc_file realName size filetype
            (objectdb_new_disc_node name))).length = files.length + 1)) ∧
    (objectdb_add_disc_directory (some r) none name realName =
      .ok ⟨objectdb_set_disc_directory realName r,
        some (objectdb_set_disc_directory realName r), none⟩ ∧
      (objectdb_set_disc_directory realName r).name = r.name) := by
  refine ⟨⟨fun d hd => ⟨?_, objectdb_find_object_name dirs name d hd,
      objectdb_update_object_length _ dirs name⟩,
    fun hn => ⟨?_, rfl, rfl, objectdb_link_object_length dirs _⟩⟩,
    ⟨fun f hf => ⟨?_, objectdb_find_object_name files name f hf,
      objectdb_update_object_length _ files name⟩,
    fun hn => ⟨?_, objectdb_link_object_length files _⟩⟩,
    ⟨?_, ?_⟩⟩
  · cases rt <;> simp [objectdb_add_disc_directory, hd]
  · cases rt <;> simp [objectdb_add_disc_directory, hn]
  · simp [objectdb_add_disc_file, hf]
  · simp [objectdb_add_disc_file, hn]
  · rfl
  · cases r; rfl

/-- Witness for `objectdb_add_disc_by_name_lookup`: a parent holding one
directory named `"x"` receives a disc record for `"x"` — the record lands
on that node and the sibling list keeps length 1. -/
theorem objectdb_add_disc_by_name_lookup_witness :
    objectdb_add_disc_directory none
        (some [objectdb_new_stronghelp_directory "x"]) "x" "rx" =
      .ok ⟨objectdb_set_disc_directory "rx" (objectdb_new_stronghelp_directory "x"),
        none,
        some (objectdb_update_object (objectdb_set_disc_directory "rx")
          [objectdb_new_stronghelp_directory "x"] "x")⟩ ∧
      (objectdb_new_stronghelp_directory "x").name = "x" ∧
      (objectdb_update_object (objectdb_set_disc_directory "rx")
        [objectdb_new_stronghelp_directory "x"] "x").length =
        [objectdb_new_stronghelp_directory "x"].length :=
  (objectdb_add_disc_by_name_lookup none (objectdb_new_disc_node "r")
    [objectdb_new_stronghelp_directory "x"] [] "x" "rx" 0 0).1.1
    (objectdb_new_stronghelp_directory "x")
    (by simp [objectdb_find_object, objectdb_new_stronghelp_directory, Obj.name])

/--
**C9.** At most one root ever exists: registering a StrongHelp root
directory while a root is present fails with `tooManyRoots` (no update to
the database is produced); a child StrongHelp insertion passes the root
slot through unchanged; a disc root insertion with no root fails with
`noRoot`, and with a root present it attaches the disc record to that very
node (same canonical name, StrongHelp side and children) rather than
installing a second root; file insertions require a parent and also leave
the root slot unchanged.
-/
theorem objectdb_single_root (r : Obj) (rt : Option Obj)
    (dirs files : List Obj) (name realName : String) (size filetype : Nat)
    (data : List Nat) :
    (objectdb_add_stronghelp_directory (some r) none name =
      .error .tooManyRoots) ∧
    (objectdb_add_stronghelp_directory rt (some dirs) name =
      .ok ⟨objectdb_new_stronghelp_directory name, rt,
        some (objectdb_link_object dirs (objectdb_new_stronghelp_directory name))⟩) ∧
    (objectdb_add_disc_directory none none name realName = .error .noRoot) ∧
    ((objectdb_add_disc_directory (some r) none name realName).map
        (fun res => res.root) =
      .ok (some (objectdb_set_disc_directory realName r)) ∧
      (objectdb_set_disc_directory realName r).name = r.name ∧
      (objectdb_set_disc_directory realName r).stronghelp = r.stronghelp ∧
      (objectdb_set_disc_directory realName r).directories = r.directories ∧
      (objectdb_set_disc_directory realName r).files = r.files) ∧
    (objectdb_add_stronghelp_file rt none name size filetype data =
      .error .noParent) ∧
    (objectdb_add_disc_file rt none name realName size filetype =
      .error .noParent) ∧
    (∀ res, objectdb_add_stronghelp_file rt (some files) name size filetype data =
      .ok res → res.root = rt) ∧
    (∀ res, objectdb_add_disc_file rt (some files) name realName size filetype =
      .ok res → res.root = rt) := by
  obtain ⟨rn, rst, rsh, rdisc, rds, rfs⟩ := r
  refine ⟨rfl, by cases rt <;> rfl, rfl, ⟨rfl, rfl, rfl, rfl, rfl⟩, rfl, rfl,
    fun res h => ?_, fun res h => ?_⟩
  · simp [objectdb_add_stronghelp_file] at h
    rw [← h]
  · rw [objectdb_add_disc_file] at h
    cases hfind : objectdb_find_object files name with
    | some f => rw [hfind] at h; simp at h; rw [← h]
    | none => rw [hfind] at h; simp at h; rw [← h]

/-- Witness for `objectdb_single_root`: inserting a StrongHelp file under
an empty parent list with an empty root slot leaves the root slot
empty. -/
theorem objectdb_single_root_witness :
    (⟨objectdb_new_stronghelp_file "f" 1 2 [3], none,
      some (objectdb_link_object [] (objectdb_new_stronghelp_file "f" 1 2 [3]))⟩ :
        AddResult).root = none :=
  (objectdb_single_root (objectdb_new_disc_node "a") none [] [] "f" "rf" 1 2
    [3]).2.2.2.2.2.2.1
    ⟨objectdb_new_stronghelp_file "f" 1 2 [3], none,
      some (objectdb_link_object [] (objectdb_new_stronghelp_file "f" 1 2 [3]))⟩ rfl

/-! ## files.c : filename synthesis, and the synchronisation pass -/

/-- `FILES_TYPE_OMIT` (files.h). -/
def FILES_TYPE_OMIT : Nat := 0xffffffff

/-- A lowercase hexadecimal digit character. -/
def files_hex_digit (n : Nat) : Char :=
  if n < 10 then Char.ofNat (48 + n) else Char.ofNat (87 + n)

/-- `snprintf "%3x"` for a 12-bit filetype: lowercase hex, space-padded on
the left to width 3 (files.c:294). -/
def files_hex3 (n : Nat) : String :=
  if n < 16 then "  " ++ String.mk [files_hex_digit (n % 16)]
  else if n < 256 then
    " " ++ String.mk [files_hex_digit ((n / 16) % 16), files_hex_digit (n % 16)]
  else
    String.mk [files_hex_digit ((n / 256) % 16), files_hex_digit ((n / 16) % 16),
      files_hex_digit (n % 16)]

/-- The Linux branch of `files_make_filename` (files.c:298-308): RISC OS
`/` becomes a native `.`. -/
def files_to_native (s : String) : String :=
  s.map (fun c => if c = '/' then '.' else c)

/-- Embedding of `files_make_filename` (files.c:276-311, Linux build):
append a `,xxx` filetype suffix unless the type is omitted or the object
is a directory, then convert the name to native conventions. -/
def files_make_filename (name : String) (filetype : Nat) : String :=
  if filetype = FILES_TYPE_OMIT ∨ filetype = OBJECTDB_TYPE_DIRECTORY then
    files_to_native name
  else files_to_native (name ++ "," ++ files_hex3 filetype)

/-- The filesystem mutations issued by `objectdb_update_directory`
(files.c primitives `files_make_directory`, `files_write_file`,
`files_set_filetype`, `files_delete_file`, `files_delete_directory`). -/
inductive FsOp where
  | makeDir (path : String)
  | writeFile (path : String) (data : List Nat) (size : Nat)
  | setFiletype (path : String) (filetype : Nat)
  | deleteFile (path : String)
  | deleteDir (path : String)
deriving DecidableEq

/-- The disc-name synthesis mutation `object->disc.name =
files_make_filename(...)` (objectdb.c:631, 650, 697). -/
def objectdb_set_disc_name (n : String) : Obj → Obj
  | .node nm st sh d ds fs =>
    .node nm st sh ⟨some n, d.size, d.filetype, d.data⟩ ds fs

/--
The per-file `switch (object->status)` of `objectdb_update_directory`
(objectdb.c:647-719).  `oracle` decides whether each filesystem operation
succeeds; the result is the C `bool` (false = abort the sync) together
with the trace of operations *attempted*, in order.  `added`: synthesise
the disc name, write the file, set its type.  `deleted`: delete the disc
file.  `typeChanged`/`sizeChanged`/`contentChanged`: delete the old disc
file, then write the replacement under a freshly synthesised name.  A
`NULL` StrongHelp name would send `strlen(NULL)` into
`files_make_filename`, and a missing ancestor disc name crashes
`objectdb_get_path`; both are `.crash`.
-/
def objectdb_update_file (oracle : FsOp → Bool) (chain : List Obj) (o : Obj) :
    Res (Bool × List FsOp) :=
  match o.status with
  | .added =>
    match o.stronghelp.name with
    | none => .crash
    | some shn =>
      let o1 := objectdb_set_disc_name (files_make_filename shn o.stronghelp.filetype) o
      match objectdb_get_path (chain ++ [o1]) .discSide FILES_PATH_SEPARATOR with
      | .crash => .crash
      | .ok p =>
        let w := FsOp.writeFile p (o.stronghelp.data.getD []) o.stronghelp.size
        if oracle w = false then .ok (false, [w])
        else if oracle (.setFiletype p o.stronghelp.filetype) = false then
          .ok (false, [w, .setFiletype p o.stronghelp.filetype])
        else .ok (true, [w, .setFiletype p o.stronghelp.filetype])
  | .deleted =>
    match objectdb_get_path (chain ++ [o]) .discSide FILES_PATH_SEPARATOR with
    | .crash => .crash
    | .ok p =>
      if oracle (.deleteFile p) = false then .ok (false, [.deleteFile p])
      else .ok (true, [.deleteFile p])
  | .typeChanged | .sizeChanged | .contentChanged =>
    match objectdb_get_path (chain ++ [o]) .discSide FILES_PATH_SEPARATOR with
    | .crash => .crash
    | .ok p =>
      if oracle (.deleteFile p) = false then .ok (false, [.deleteFile p])
      else
        match o.stronghelp.name with
        | none => .crash
        | some shn =>
          let o1 := objectdb_set_disc_name (files_make_filename shn o.stronghelp.filetype) o
          match objectdb_get_path (chain ++ [o1]) .discSide FILES_PATH_SEPARATOR with
          | .crash => .crash
          | .ok p2 =>
            let w := FsOp.writeFile p2 (o.stronghelp.data.getD []) o.stronghelp.size
            if oracle w = false then .ok (false, [.deleteFile p, w])
            else if oracle (.setFiletype p2 o.stronghelp.filetype) = false then
              .ok (false, [.deleteFile p, w, .setFiletype p2 o.stronghelp.filetype])
            else .ok (true, [.deleteFile p, w, .setFiletype p2 o.stronghelp.filetype])
  | _ => .ok (true, [])

/-- The file loop of `objectdb_update_directory` (objectdb.c:646-719):
process the files in sibling order, stopping at the first failure. -/
def objectdb_update_files (oracle : FsOp → Bool) (chain : List Obj) :
    List Obj → Res (Bool × List FsOp)
  | [] => .ok (true, [])
  | f :: rest =>
    match objectdb_update_file oracle chain f with
    | .crash => .crash
    | .ok (false, tr) => .ok (false, tr)
    | .ok (true, tr) =>
      match objectdb_update_files oracle chain rest with
      | .crash => .crash
      | .ok (ok2, tr2) => .ok (ok2, tr ++ tr2)

/-- The `ADDED`-directory prologue of `objectdb_update_directory`
(objectdb.c:630-644): synthesise the disc name and create the directory
before anything below it is processed.  Returns the C `bool`, the trace,
and the node with its disc name updated (used by descendants' paths). -/
def objectdb_update_added_dir (oracle : FsOp → Bool) (chain : List Obj)
    (o : Obj) : Res (Bool × List FsOp × Obj) :=
  if o.status = .added then
    match o.stronghelp.name with
    | none => .crash
    | some shn =>
      let o1 := objectdb_set_disc_name (files_make_filename shn o.stronghelp.filetype) o
      match objectdb_get_path (chain ++ [o1]) .discSide FILES_PATH_SEPARATOR with
      | .crash => .crash
      | .ok p => .ok (oracle (.makeDir p), [.makeDir p], o1)
  else .ok (true, [], o)

mutual

/--
Embedding of `objectdb_update_directory` (objectdb.c:622-743): handle an
`added` directory's creation first, then this directory's files, then
recurse into the subdirectories, and only after both loops have completed
successfully delete the directory itself when its status is `deleted`
(objectdb.c:728-740).  Any operation failure returns `false` immediately,
aborting everything that would follow.
-/
def objectdb_update_directory (oracle : FsOp → Bool) (chain : List Obj) :
    Obj → Res (Bool × List FsOp)
  | .node name st sh disc dirs files =>
    match objectdb_update_added_dir oracle chain (.node name st sh disc dirs files) with
    | .crash => .crash
    | .ok (false, tr0, _) => .ok (false, tr0)
    | .ok (true, tr0, self1) =>
      match objectdb_update_files oracle (chain ++ [self1]) files with
      | .crash => .crash
      | .ok (false, tr1) => .ok (false, tr0 ++ tr1)
      | .ok (true, tr1) =>
        match objectdb_update_dir_list oracle (chain ++ [self1]) dirs with
        | .crash => .crash
        | .ok (false, tr2) => .ok (false, tr0 ++ tr1 ++ tr2)
        | .ok (true, tr2) =>
          if st = .deleted then
            match objectdb_get_path (chain ++ [self1]) .discSide FILES_PATH_SEPARATOR with
            | .crash => .crash
            | .ok p =>
              .ok (oracle (.deleteDir p), tr0 ++ tr1 ++ tr2 ++ [.deleteDir p])
          else .ok (true, tr0 ++ tr1 ++ tr2)

/-- The subdirectory loop of `objectdb_update_directory`
(objectdb.c:721-726): recurse into each child in sibling order, stopping
at the first failure. -/
def objectdb_update_dir_list (oracle : FsOp → Bool) (chain : List Obj) :
    List Obj → Res (Bool × List FsOp)
  | [] => .ok (true, [])
  | d :: rest =>
    match objectdb_update_directory oracle chain d with
    | .crash => .crash
    | .ok (false, tr) => .ok (false, tr)
    | .ok (true, tr) =>
      match objectdb_update_dir_list oracle chain rest with
      | .crash => .crash
      | .ok (ok2, tr2) => .ok (ok2, tr ++ tr2)

end

/-- A successful subdirectory loop is exactly the concatenation of one
complete, successful trace per child, in sibling order. -/
theorem objectdb_update_dir_list_join (oracle : FsOp → Bool)
    (chain : List Obj) (l : List Obj) :
    ∀ tr, objectdb_update_dir_list oracle chain l = .ok (true, tr) →
      ∃ trs, tr = trs.flatten ∧
        List.Forall₂
          (fun d t => objectdb_update_directory oracle chain d = .ok (true, t))
          l trs := by
  induction l with
  | nil =>
    intro tr h
    rw [objectdb_update_dir_list] at h
    injection h with h
    injection h with h1 h2
    exact ⟨[], by simp [← h2], .nil⟩
  | cons d rest ih =>
    intro tr h
    rw [objectdb_update_dir_list] at h
    cases hd : objectdb_update_directory oracle chain d with
    | crash => rw [hd] at h; exact absurd h (by simp)
    | ok v =>
      obtain ⟨ok1, tr1⟩ := v
      rw [hd] at h
      cases ok1 with
      | false => simp at h
      | true =>
        cases hrest : objectdb_update_dir_list oracle chain rest with
        | crash => rw [hrest] at h; exact absurd h (by simp)
        | ok w =>
          obtain ⟨ok2, tr2⟩ := w
          rw [hrest] at h
          simp at h
          obtain ⟨hok2, htr⟩ := h
          subst hok2
          obtain ⟨trs, htrs, hall⟩ := ih tr2 hrest
          exact ⟨tr1 :: trs, by simp [← htr, htrs], .cons hd hall⟩

/--
**C7.** For a directory with status `deleted`, the synchronisation pass
deletes the directory only after its entire subtree has been resolved:
(1) if this directory's file loop fails, the update aborts with just the
file trace — no directory delete; (2) if the subdirectory recursion fails,
the update aborts with the file and partial child traces — no directory
delete; (3) only when the file loop and *every* child's recursive update
have completed successfully is `deleteDir` attempted, and it is the final
operation of the trace, preceded by the full trace of every child.
-/
theorem objectdb_parent_delete_after_children (oracle : FsOp → Bool)
    (chain : List Obj) (name : String) (sh disc : ObjDetails)
    (dirs files : List Obj) :
    (∀ tr1, objectdb_update_files oracle
        (chain ++ [Obj.node name .deleted sh disc dirs files]) files =
        .ok (false, tr1) →
      objectdb_update_directory oracle chain
        (.node name .deleted sh disc dirs files) = .ok (false, tr1)) ∧
    (∀ tr1 tr2, objectdb_update_files oracle
        (chain ++ [Obj.node name .deleted sh disc dirs files]) files =
        .ok (true, tr1) →
      objectdb_update_dir_list oracle
        (chain ++ [Obj.node name .deleted sh disc dirs files]) dirs =
        .ok (false, tr2) →
      objectdb_update_directory oracle chain
        (.node name .deleted sh disc dirs files) = .ok (false, tr1 ++ tr2)) ∧
    (∀ tr1 tr2 p, objectdb_update_files oracle
        (chain ++ [Obj.node name .deleted sh disc dirs files]) files =
        .ok (true, tr1) →
      objectdb_update_dir_list oracle
        (chain ++ [Obj.node name .deleted sh disc dirs files]) dirs =
        .ok (true, tr2) →
      objectdb_get_path (chain ++ [Obj.node name .deleted sh disc dirs files])
        .discSide FILES_PATH_SEPARATOR = .ok p →
      objectdb_update_directory oracle chain
        (.node name .deleted sh disc dirs files) =
        .ok (oracle (.deleteDir p), tr1 ++ tr2 ++ [.deleteDir p]) ∧
      ∃ trs, tr2 = trs.flatten ∧
        List.Forall₂
          (fun d t => objectdb_update_directory oracle
            (chain ++ [Obj.node name .deleted sh disc dirs files]) d =
            .ok (true, t))
          dirs trs) := by
  have hadd : objectdb_update_added_dir oracle chain
      (.node name .deleted sh disc dirs files) =
      .ok (true, [], .node name .deleted sh disc dirs files) := by
    rw [objectdb_update_added_dir, if_neg (by simp [Obj.status])]
  refine ⟨fun tr1 h1 => ?_, fun tr1 tr2 h1 h2 => ?_, fun tr1 tr2 p h1 h2 hp => ?_⟩
  · rw [objectdb_update_directory]
    simp [hadd, h1]
  · rw [objectdb_update_directory]
    simp [hadd, h1, h2]
  · refine ⟨?_, objectdb_update_dir_list_join oracle _ dirs tr2 h2⟩
    rw [objectdb_update_directory]
    simp [hadd, h1, h2, hp]

/-- Node for the `C7` witness: a deleted file inside the deleted
directory. -/
def objectdb_sample_deleted_file : Obj :=
  .node "df" .deleted ⟨none, 0, OBJECTDB_TYPE_UNKNOWN, none⟩
    ⟨some "df", 3, 0xfff, none⟩ [] []

/-- Node for the `C7` witness: a deleted subdirectory inside the deleted
directory. -/
def objectdb_sample_deleted_subdir : Obj :=
  .node "sd" .deleted ⟨none, 0, OBJECTDB_TYPE_UNKNOWN, none⟩
    ⟨some "sd", 0, OBJECTDB_TYPE_DIRECTORY, none⟩ [] []

/-- Witness for `objectdb_parent_delete_after_children`: with an
always-succeeding filesystem, the deleted directory `d` containing the
deleted file `df` and the deleted subdirectory `sd` produces the trace
`deleteFile d/df; deleteDir d/sd; deleteDir d` — the parent delete last,
after its fully-resolved subtree. -/
theorem objectdb_parent_delete_after_children_witness :
    objectdb_update_directory (fun _ => true) []
        (.node "d" .deleted ⟨none, 0, OBJECTDB_TYPE_UNKNOWN, none⟩
          ⟨some "d", 0, OBJECTDB_TYPE_DIRECTORY, none⟩
          [objectdb_sample_deleted_subdir] [objectdb_sample_deleted_file]) =
      .ok (true, [FsOp.deleteFile "d/df"] ++ [FsOp.deleteDir "d/sd"] ++
        [FsOp.deleteDir "d"]) ∧
    ∃ trs, [FsOp.deleteDir "d/sd"] = trs.flatten ∧
      List.Forall₂
        (fun d t => objectdb_update_directory (fun _ => true)
          ([] ++ [Obj.node "d" .deleted ⟨none, 0, OBJECTDB_TYPE_UNKNOWN, none⟩
            ⟨some "d", 0, OBJECTDB_TYPE_DIRECTORY, none⟩
            [objectdb_sample_deleted_subdir] [objectdb_sample_deleted_file]]) d =
          .ok (true, t))
        [objectdb_sample_deleted_subdir] trs :=
  (objectdb_parent_delete_after_children (fun _ => true) [] "d"
    ⟨none, 0, OBJECTDB_TYPE_UNKNOWN, none⟩
    ⟨some "d", 0, OBJECTDB_TYPE_DIRECTORY, none⟩
    [objectdb_sample_deleted_subdir] [objectdb_sample_deleted_file]).2.2
    [FsOp.deleteFile "d/df"] [FsOp.deleteDir "d/sd"] "d" (by rfl) (by rfl) (by rfl)

end Strongex
